import Mathlib

/-!
Shallow embedding of `ki/net.py` (kipy): session lifecycle, liveness
supervision, keep-alive transmission, connection coordination and server-side
identifier allocation.  Transports, endpoint back-references and message
managers are abstracted to numeric handles; every operation additionally
returns the list of externally observable effects it performs (task
cancellations, transport closes, log lines, handler invocations).
-/

/-- Close reason codes.  Modelled from the spec: `SessionCloseErrorCode` is
imported from the external protocol engine (`ki/protocol/net`, not under
`src/`); the spec fixes a closed enumeration containing `INVALID_MESSAGE` and
`SESSION_DIED` (spec section 6). -/
inductive SessionCloseErrorCode where
  | INVALID_MESSAGE
  | SESSION_DIED
  deriving DecidableEq, Repr

/-- Embeds `AccessLevel` enum (`net.py` 23-26). -/
inductive AccessLevel where
  | NEW
  | ESTABLISHED
  | AUTHENTICATED
  deriving DecidableEq, Repr

/-- The numeric `.value` of each `AccessLevel` member (`net.py` 24-26). -/
def AccessLevel.value : AccessLevel → Nat
  | .NEW => 0
  | .ESTABLISHED => 1
  | .AUTHENTICATED => 2

/-- The kind of coroutine handed to `asyncio.ensure_future`: the
`_ensure_alive` watchdog loop or the `_keep_alive` sender loop. -/
inductive TaskKind where
  | ensureAlive
  | keepAlive
  deriving DecidableEq, Repr

/-- The event loop's set of scheduled tasks: `asyncio.ensure_future` spawns a
task that keeps running until it is cancelled, whether or not anyone still
holds a reference to it. -/
structure TaskStore where
  next_id : Nat
  running : List (Nat × TaskKind)
  deriving DecidableEq, Repr

/-- An event loop with no tasks scheduled yet. -/
def TaskStore.fresh : TaskStore := ⟨0, []⟩

/-- Embeds `asyncio.ensure_future(coro)`: schedule a new task, returning its handle. -/
def TaskStore.ensure_future (k : TaskKind) (st : TaskStore) : Nat × TaskStore :=
  (st.next_id, ⟨st.next_id + 1, st.running ++ [(st.next_id, k)]⟩)

/-- Embeds `task.cancel()`: the task is no longer scheduled. -/
def TaskStore.cancel (t : Nat) (st : TaskStore) : TaskStore :=
  ⟨st.next_id, st.running.filter (fun p => p.1 != t)⟩

/-- Whether the task with handle `t` is still scheduled on the loop. -/
def TaskStore.is_running (st : TaskStore) (t : Nat) : Bool :=
  st.running.any (fun p => p.1 == t)

/-- Per-session state of `SessionBase` and its subclasses (`net.py` 29-96,
146-170, 294-318).  Transport handles are numbers; the endpoint
back-references (`self.server` / `self.client`) and the DML message manager
carry no claim-relevant state and are not modelled.  The fields `id`, `alive`
and `access_level` live on the native base classes (`ki/protocol/net`, not
under `src/`). -/
structure Session where
  transport : Option Nat
  ensure_alive_interval : Nat
  keep_alive_interval : Nat
  ensure_alive_task : Option Nat
  keep_alive_task : Option Nat
  access_level : Nat
  alive : Bool
  id : Nat
  deriving DecidableEq, Repr

/-- Modelled from the spec: the native session base classes (`ki/protocol/net`,
not under `src/`) present a fresh session at access level `NEW` with a false
`alive` flag before the Python constructors run (spec sections 3, 4.2 and 8);
the id is stored later by the native constructor. -/
def Session.blank : Session :=
  { transport := none
    ensure_alive_interval := 0
    keep_alive_interval := 0
    ensure_alive_task := none
    keep_alive_task := none
    access_level := AccessLevel.NEW.value
    alive := false
    id := 0 }

/-- Observable effects: task cancellations, transport operations, log lines,
handler invocations and lifecycle callbacks. -/
inductive Effect where
  | cancel (task : Nat)
  | log_close (sid : Nat) (error : SessionCloseErrorCode)
  | transport_close (t : Nat)
  | log_timeout (sid : Nat)
  | log_refusal
  | on_connected (sid : Nat)
  | log_on_message (sid : Nat) (name : String)
  | invoke (handler : Nat) (sid : Nat) (name : String)
  | log_no_handler (sid : Nat) (name : String)
  deriving DecidableEq, Repr

/-- Embeds `SessionBase.close` (`net.py` 63-79): cancel and clear the watchdog task
reference, then cancel and clear the keep-alive task reference, then — if a
transport is held — log the closure with the reason, close the transport and
clear the reference.  Returns the updated session and event loop together
with the trace of observable effects, in order. -/
def SessionBase.close (s : Session) (st : TaskStore) (error : SessionCloseErrorCode) :
    (Session × TaskStore) × List Effect :=
  let p1 : (Session × TaskStore) × List Effect :=
    match s.ensure_alive_task with
    | some t => (({ s with ensure_alive_task := none }, st.cancel t), [Effect.cancel t])
    | none => ((s, st), [])
  let p2 : (Session × TaskStore) × List Effect :=
    match p1.1.1.keep_alive_task with
    | some t =>
        (({ p1.1.1 with keep_alive_task := none }, p1.1.2.cancel t), p1.2 ++ [Effect.cancel t])
    | none => (p1.1, p1.2)
  match p2.1.1.transport with
  | some tr =>
      (({ p2.1.1 with transport := none }, p2.1.2),
        p2.2 ++ [Effect.log_close p2.1.1.id error, Effect.transport_close tr])
  | none => (p2.1, p2.2)

/-- C3: calling `close` twice produces externally observable effects identical
to calling it once — the second call finds the task references and the
transport already null, changes nothing and emits no effect (and, being a
total function, cannot raise). -/
theorem close_idempotent (s : Session) (st : TaskStore)
    (e e' : SessionCloseErrorCode) :
    (SessionBase.close (SessionBase.close s st e).1.1 (SessionBase.close s st e).1.2 e').1
        = (SessionBase.close s st e).1
      ∧ (SessionBase.close (SessionBase.close s st e).1.1 (SessionBase.close s st e).1.2 e').2
        = [] := by
  cases h1 : s.ensure_alive_task <;> cases h2 : s.keep_alive_task <;>
    cases h3 : s.transport <;>
    simp [SessionBase.close, h1, h2, h3]

/-- C4: on an open session holding both tasks, `close` performs, in order:
cancel the watchdog task, cancel the keep-alive task, log, close the
transport; and it clears all three references. -/
theorem close_order (s : Session) (st : TaskStore) (e : SessionCloseErrorCode)
    (w k tr : Nat)
    (hw : s.ensure_alive_task = some w) (hk : s.keep_alive_task = some k)
    (ht : s.transport = some tr) :
    (SessionBase.close s st e).2
        = [Effect.cancel w, Effect.cancel k, Effect.log_close s.id e,
           Effect.transport_close tr]
      ∧ (SessionBase.close s st e).1.1.ensure_alive_task = none
      ∧ (SessionBase.close s st e).1.1.keep_alive_task = none
      ∧ (SessionBase.close s st e).1.1.transport = none := by
  simp [SessionBase.close, hw, hk, ht]

/-- Witness for C4 at a concrete open session. -/
theorem close_order_witness :
    (SessionBase.close
        { transport := some 7, ensure_alive_interval := 10, keep_alive_interval := 60,
          ensure_alive_task := some 0, keep_alive_task := some 1,
          access_level := 1, alive := true, id := 3 }
        ⟨2, [(0, TaskKind.ensureAlive), (1, TaskKind.keepAlive)]⟩
        SessionCloseErrorCode.SESSION_DIED).2
      = [Effect.cancel 0, Effect.cancel 1,
         Effect.log_close 3 SessionCloseErrorCode.SESSION_DIED,
         Effect.transport_close 7] :=
  (close_order
    { transport := some 7, ensure_alive_interval := 10, keep_alive_interval := 60,
      ensure_alive_task := some 0, keep_alive_task := some 1,
      access_level := 1, alive := true, id := 3 }
    ⟨2, [(0, TaskKind.ensureAlive), (1, TaskKind.keepAlive)]⟩
    SessionCloseErrorCode.SESSION_DIED 0 1 7 rfl rfl rfl).1

/-- Embeds `SessionBase.__init__` (`net.py` 32-36): store the transport and the
watchdog interval, then spawn the `_ensure_alive` watchdog task via
`asyncio.ensure_future`.  A state transformer, since the Python constructor
assigns attributes on an already-existing object. -/
def SessionBase.init (transport ensure_alive_interval : Nat)
    (w : Session × TaskStore) : Session × TaskStore :=
  let p := TaskStore.ensure_future TaskKind.ensureAlive w.2
  ({ w.1 with
      transport := some transport
      ensure_alive_interval := ensure_alive_interval
      ensure_alive_task := some p.1 }, p.2)

/-- Embeds `ServerSessionBase.__init__` (`net.py` 147-154): run `SessionBase.__init__`
via `super()`, store the keep-alive interval and null the keep-alive task
reference (the server back-reference carries no claim-relevant state). -/
def ServerSessionBase.init (transport keep_alive_interval ensure_alive_interval : Nat)
    (w : Session × TaskStore) : Session × TaskStore :=
  let w := SessionBase.init transport ensure_alive_interval w
  ({ w.1 with keep_alive_interval := keep_alive_interval, keep_alive_task := none }, w.2)

/-- Modelled from the spec: `CServerSession.__init__(self, id)` comes from the
external protocol engine (`ki/protocol/net`, not under `src/`); per the spec
(section 3) it stores the session's integer identifier. -/
def CServerSession.init (id : Nat) (s : Session) : Session :=
  { s with id := id }

/-- Modelled from the spec: `CClientSession.__init__(self, id)` likewise
stores the identifier (`ki/protocol/net`, not under `src/`). -/
def CClientSession.init (id : Nat) (s : Session) : Session :=
  { s with id := id }

/-- Modelled from the spec: `CServerDMLSession.__init__(self, id, manager)`
stores the identifier; the DML message manager is not modelled
(`ki/protocol/net`, not under `src/`). -/
def CServerDMLSession.init (id : Nat) (s : Session) : Session :=
  { s with id := id }

/-- Modelled from the spec: `CClientDMLSession.__init__(self, id, manager)`
stores the identifier; the DML message manager is not modelled
(`ki/protocol/net`, not under `src/`). -/
def CClientDMLSession.init (id : Nat) (s : Session) : Session :=
  { s with id := id }

/-- Keyword default of `keep_alive_interval` in `ServerSessionBase.__init__`
(`net.py` 148). -/
def ServerSessionBase.default_keep_alive_interval : Nat := 60

/-- Keyword default of `keep_alive_interval` in `ServerSession.__init__`
(`net.py` 175). -/
def ServerSession.default_keep_alive_interval : Nat := 60

/-- Keyword default of `ensure_alive_interval` in `ServerSession.__init__`
(`net.py` 175). -/
def ServerSession.default_ensure_alive_interval : Nat := 10

/-- Embeds `ServerSession.__init__` (`net.py` 174-180): `ServerSessionBase.__init__`
followed by the native `CServerSession.__init__`. -/
def ServerSession.init (transport id keep_alive_interval ensure_alive_interval : Nat)
    (w : Session × TaskStore) : Session × TaskStore :=
  let w := ServerSessionBase.init transport keep_alive_interval ensure_alive_interval w
  (CServerSession.init id w.1, w.2)

/-- A `ServerSession` constructed with both keyword arguments left at their
defaults, as `Server.create_session` does (`net.py` 273). -/
def ServerSession.new (transport id : Nat) (st : TaskStore) : Session × TaskStore :=
  ServerSession.init transport id
    ServerSession.default_keep_alive_interval
    ServerSession.default_ensure_alive_interval
    (Session.blank, st)

/-- Embeds `SessionBase.on_established` (`net.py` 81-88): set the access level to
`ESTABLISHED.value`. -/
def SessionBase.on_established (s : Session) : Session :=
  { s with access_level := AccessLevel.ESTABLISHED.value }

/-- Embeds `ServerSessionBase.on_established` (`net.py` 162-170): run the base
behaviour, then spawn the `_keep_alive` sender task and store its handle. -/
def ServerSessionBase.on_established (w : Session × TaskStore) : Session × TaskStore :=
  let s := SessionBase.on_established w.1
  let p := TaskStore.ensure_future TaskKind.keepAlive w.2
  ({ s with keep_alive_task := some p.1 }, p.2)

/-- Whether the session's currently-referenced watchdog task is scheduled. -/
def watchdog_running (w : Session × TaskStore) : Bool :=
  match w.1.ensure_alive_task with
  | some t => w.2.is_running t
  | none => false

/-- Whether the session's currently-referenced keep-alive task is scheduled. -/
def keep_alive_running (w : Session × TaskStore) : Bool :=
  match w.1.keep_alive_task with
  | some t => w.2.is_running t
  | none => false

/-- C2 counterexample: a freshly constructed server session is open and still
at access level `NEW`, yet its watchdog task is already running —
`SessionBase.__init__` spawns it at creation, refuting the claim that neither
periodic task runs while the session is in the `NEW` state. -/
theorem new_session_watchdog_already_running :
    let w := ServerSession.new 5 1 TaskStore.fresh
    w.1.access_level = AccessLevel.NEW.value
      ∧ w.1.transport = some 5
      ∧ watchdog_running w = true
      ∧ keep_alive_running w = false := by
  decide

/-- C2 amended: over the server session lifecycle — creation, establishment,
close — the keep-alive task is running iff the session is open and has reached
`ESTABLISHED`, while the watchdog task is running whenever the session is
open, from creation onward (including the `NEW` state). -/
theorem periodic_task_lifecycle (tr id : Nat) (e : SessionCloseErrorCode) :
    let w0 := ServerSession.new tr id TaskStore.fresh
    let w1 := ServerSessionBase.on_established w0
    let w2 := (SessionBase.close w1.1 w1.2 e).1
    let w3 := (SessionBase.close w0.1 w0.2 e).1
    (w0.1.access_level = AccessLevel.NEW.value
        ∧ w0.1.transport = some tr
        ∧ watchdog_running w0 = true ∧ keep_alive_running w0 = false)
      ∧ (w1.1.access_level = AccessLevel.ESTABLISHED.value
        ∧ w1.1.transport = some tr
        ∧ watchdog_running w1 = true ∧ keep_alive_running w1 = true)
      ∧ (w2.1.transport = none
        ∧ watchdog_running w2 = false ∧ keep_alive_running w2 = false)
      ∧ (w3.1.transport = none
        ∧ watchdog_running w3 = false ∧ keep_alive_running w3 = false) := by
  simp [ServerSession.new, ServerSession.init, ServerSessionBase.init,
    SessionBase.init, CServerSession.init, ServerSessionBase.on_established,
    SessionBase.on_established, SessionBase.close, Session.blank,
    TaskStore.fresh, TaskStore.ensure_future, TaskStore.cancel,
    TaskStore.is_running, watchdog_running, keep_alive_running,
    AccessLevel.value, ServerSession.default_keep_alive_interval,
    ServerSession.default_ensure_alive_interval]

/-- Keyword default of `keep_alive_interval` in `ClientSessionBase.__init__`
(`net.py` 296). -/
def ClientSessionBase.default_keep_alive_interval : Nat := 10

/-- Keyword default of `keep_alive_interval` in `ClientSession.__init__`
(`net.py` 323). -/
def ClientSession.default_keep_alive_interval : Nat := 60

/-- Keyword default of `ensure_alive_interval` in `ClientSession.__init__`
(`net.py` 323). -/
def ClientSession.default_ensure_alive_interval : Nat := 10

/-- Embeds `ClientSessionBase.__init__` (`net.py` 295-302): run `SessionBase.__init__`
via `super()`, store the keep-alive interval and null the keep-alive task
reference (the client back-reference carries no claim-relevant state). -/
def ClientSessionBase.init (transport keep_alive_interval ensure_alive_interval : Nat)
    (w : Session × TaskStore) : Session × TaskStore :=
  let w := SessionBase.init transport ensure_alive_interval w
  ({ w.1 with keep_alive_interval := keep_alive_interval, keep_alive_task := none }, w.2)

/-- Embeds `ClientSession.__init__` (`net.py` 322-328): `ClientSessionBase.__init__`
followed by the native `CClientSession.__init__`. -/
def ClientSession.init (transport id keep_alive_interval ensure_alive_interval : Nat)
    (w : Session × TaskStore) : Session × TaskStore :=
  let w := ClientSessionBase.init transport keep_alive_interval ensure_alive_interval w
  (CClientSession.init id w.1, w.2)

/-- Embeds `Client.create_session` (`net.py` 394-398): construct
`SESSION_CLS(self, transport, 0)` — a `ClientSession` with id `0` and both
keyword arguments left at the `ClientSession.__init__` defaults. -/
def Client.create_session (transport : Nat) (st : TaskStore) : Session × TaskStore :=
  ClientSession.init transport 0
    ClientSession.default_keep_alive_interval
    ClientSession.default_ensure_alive_interval
    (Session.blank, st)

/-- C9 counterexample: a client session created without explicit keep-alive
configuration (as `Client.create_session` creates it) has keep-alive interval
60, not the claimed 10 — `ClientSession.__init__` declares its own default of
60 and always passes it down to `ClientSessionBase.__init__`. -/
theorem client_default_keep_alive_not_ten :
    (Client.create_session 3 TaskStore.fresh).1.keep_alive_interval ≠ 10
      ∧ (Client.create_session 3 TaskStore.fresh).1.keep_alive_interval = 60 := by
  decide

/-- C9 amended: the `ClientSessionBase` constructor's keyword default is
indeed 10, but the concrete `ClientSession` constructor declares its own
default of 60 and always passes it down, so a client session created without
explicit keep-alive configuration uses 60 — the same as a server session's
default. -/
theorem default_keep_alive_intervals (trc trs id : Nat) :
    ClientSessionBase.default_keep_alive_interval = 10
      ∧ (Client.create_session trc TaskStore.fresh).1.keep_alive_interval
          = ClientSession.default_keep_alive_interval
      ∧ ClientSession.default_keep_alive_interval = 60
      ∧ (ServerSession.new trs id TaskStore.fresh).1.keep_alive_interval = 60
      ∧ ServerSessionBase.default_keep_alive_interval = 60 := by
  simp [Client.create_session, ClientSession.init, ClientSessionBase.init,
    SessionBase.init, CClientSession.init, ServerSession.new,
    ServerSession.init, ServerSessionBase.init, CServerSession.init,
    Session.blank, ClientSession.default_keep_alive_interval,
    ClientSession.default_ensure_alive_interval,
    ClientSessionBase.default_keep_alive_interval,
    ServerSession.default_keep_alive_interval,
    ServerSession.default_ensure_alive_interval,
    ServerSessionBase.default_keep_alive_interval]

/-- Embeds `ServerDMLSession.__init__` (`net.py` 184-193): it explicitly calls
`DMLSessionBase.__init__` — which resolves to `SessionBase.__init__`, since
`DMLSessionBase` declares no constructor of its own — and then
`ServerSessionBase.__init__`, whose `super().__init__()` reaches
`SessionBase.__init__` a second time (MRO: `DMLSessionBase`,
`ServerSessionBase`, `SessionBase`, ...).  Each run of `SessionBase.__init__`
spawns a fresh `_ensure_alive` watchdog task; the second assignment
overwrites the reference to the first.  Finally the native
`CServerDMLSession.__init__` stores the id. -/
def ServerDMLSession.init (transport id keep_alive_interval ensure_alive_interval : Nat)
    (w : Session × TaskStore) : Session × TaskStore :=
  let w := SessionBase.init transport ensure_alive_interval w
  let w := ServerSessionBase.init transport keep_alive_interval ensure_alive_interval w
  (CServerDMLSession.init id w.1, w.2)

/-- Embeds `ClientDMLSession.__init__` (`net.py` 332-341): same shape as
`ServerDMLSession.__init__` — `DMLSessionBase.__init__` (resolving to
`SessionBase.__init__`), then `ClientSessionBase.__init__` (running
`SessionBase.__init__` again via `super()`), then the native
`CClientDMLSession.__init__`. -/
def ClientDMLSession.init (transport id keep_alive_interval ensure_alive_interval : Nat)
    (w : Session × TaskStore) : Session × TaskStore :=
  let w := SessionBase.init transport ensure_alive_interval w
  let w := ClientSessionBase.init transport keep_alive_interval ensure_alive_interval w
  (CClientDMLSession.init id w.1, w.2)

/-- C10: constructing a `ServerDMLSession` (and likewise a `ClientDMLSession`)
on a fresh event loop runs `SessionBase.__init__` twice, so two `_ensure_alive`
watchdog tasks are spawned (handles 0 and 1); the session's reference holds
only the second, and a subsequent `close` cancels only the second while the
first remains scheduled. -/
theorem dml_session_double_watchdog (tr id kai eai : Nat) :
    (let w := ServerDMLSession.init tr id kai eai (Session.blank, TaskStore.fresh)
     (w.2.running.countP (fun p => p.2 == TaskKind.ensureAlive)) = 2
       ∧ w.1.ensure_alive_task = some 1
       ∧ (let c := (SessionBase.close w.1 w.2 SessionCloseErrorCode.SESSION_DIED).1
          c.2.is_running 0 = true ∧ c.2.is_running 1 = false))
      ∧ (let w := ClientDMLSession.init tr id kai eai (Session.blank, TaskStore.fresh)
         (w.2.running.countP (fun p => p.2 == TaskKind.ensureAlive)) = 2
           ∧ w.1.ensure_alive_task = some 1
           ∧ (let c := (SessionBase.close w.1 w.2 SessionCloseErrorCode.SESSION_DIED).1
              c.2.is_running 0 = true ∧ c.2.is_running 1 = false)) := by
  simp [ServerDMLSession.init, ClientDMLSession.init, ServerSessionBase.init,
    ClientSessionBase.init, SessionBase.init, CServerDMLSession.init,
    CClientDMLSession.init, SessionBase.close, Session.blank, TaskStore.fresh,
    TaskStore.ensure_future, TaskStore.cancel, TaskStore.is_running]

/-- Modelled from the spec: `AllocationError` is raised by the identifier
allocator (`ki/util`, not under `src/`) when the pool is exhausted (spec
sections 4.1 and 7). -/
inductive AllocationError where
  | pool_exhausted
  deriving DecidableEq, Repr

/-- Modelled from the spec: `IDAllocator` (`ki/util`, not under `src/`) — a
bounded pool of unique integer identifiers over the inclusive range
`[min, max]` together with the set of currently allocated ids (spec sections
2, 3 and 4.1). -/
structure IDAllocator where
  min : Nat
  max : Nat
  allocated : List Nat
  deriving DecidableEq, Repr

/-- Modelled from the spec: `IDAllocator.allocate` (`ki/util`, not under
`src/`) returns the smallest currently-free identifier in `[min, max]` and
marks it allocated, or fails with `AllocationError` when every identifier in
range is allocated (spec section 4.1). -/
def IDAllocator.allocate (a : IDAllocator) : Except AllocationError (Nat × IDAllocator) :=
  match (List.range' a.min (a.max + 1 - a.min)).find? (fun i => !(a.allocated.contains i)) with
  | some i => .ok (i, { a with allocated := i :: a.allocated })
  | none => .error AllocationError.pool_exhausted

/-- Modelled from the spec: `IDAllocator.free` (`ki/util`, not under `src/`)
returns an identifier to the free pool (spec section 4.1; the double-free
error path is never exercised by the claims and is not modelled). -/
def IDAllocator.free (id : Nat) (a : IDAllocator) : IDAllocator :=
  { a with allocated := a.allocated.filter (fun i => i != id) }

/-- Python dict assignment `m[k] = v` for a `Nat`-keyed association list. -/
def dict_set (m : List (Nat × Session)) (k : Nat) (v : Session) : List (Nat × Session) :=
  (m.filter (fun p => p.1 != k)) ++ [(k, v)]

/-- Server-side endpoint state (`net.py` 238-254): the id allocator and the
mapping from session id to session (`self.sessions`).  The port and startup
timestamp carry no claim-relevant state. -/
structure Server where
  session_id_allocator : IDAllocator
  sessions : List (Nat × Session)
  deriving DecidableEq, Repr

/-- Embeds `Server.MIN_SESSION_ID` (`net.py` 242). -/
def Server.MIN_SESSION_ID : Nat := 1

/-- Embeds `Server.MAX_SESSION_ID` (`net.py` 243). -/
def Server.MAX_SESSION_ID : Nat := 0xFFFF

/-- Embeds `Server.__init__` (`net.py` 247-254): a fresh allocator over
`[MIN_SESSION_ID, MAX_SESSION_ID]` and an empty session mapping. -/
def Server.init : Server :=
  { session_id_allocator := ⟨Server.MIN_SESSION_ID, Server.MAX_SESSION_ID, []⟩
    sessions := [] }

/-- Embeds `Server.create_session` (`net.py` 270-275): allocate an id (propagating
`AllocationError`), construct `SESSION_CLS(self, transport, session_id)` with
default intervals, store the session in the mapping under its id, and return
it. -/
def Server.create_session (sv : Server) (transport : Nat) (st : TaskStore) :
    Except AllocationError (Session × Server × TaskStore) :=
  match sv.session_id_allocator.allocate with
  | .error e => .error e
  | .ok (session_id, alloc) =>
      let w := ServerSession.new transport session_id st
      .ok (w.1,
        { sv with
            session_id_allocator := alloc
            sessions := dict_set sv.sessions session_id w.1 },
        w.2)

/-- Connection-coordinator state of `ServerProtocol` (`net.py` 196-235):
`self.session`, and whether `self.server` is still attached (it is set to
`None` by `connection_lost`). -/
structure ServerProtocol where
  session : Option Session
  has_server : Bool
  deriving DecidableEq, Repr

/-- Embeds `ServerProtocol.connection_made` (`net.py` 202-218): ask the server for a
new session; on `AllocationError`, log the refusal and close the raw
transport without constructing a session; on success, store the session and
notify it via `on_connected()`. -/
def ServerProtocol.connection_made (p : ServerProtocol) (sv : Server) (st : TaskStore)
    (transport : Nat) : (ServerProtocol × Server × TaskStore) × List Effect :=
  match Server.create_session sv transport st with
  | .error _ =>
      ((p, sv, st), [Effect.log_refusal, Effect.transport_close transport])
  | .ok (s, sv2, st2) =>
      (({ p with session := some s }, sv2, st2), [Effect.on_connected s.id])

/-- Embeds `ServerProtocol.connection_lost` (`net.py` 220-235): if a session is held,
free its id back to the server's allocator, close the session with
`SESSION_DIED` and drop the reference; finally drop the server reference.
Note: the session is never removed from `server.sessions`. -/
def ServerProtocol.connection_lost (p : ServerProtocol) (sv : Server) (st : TaskStore) :
    (ServerProtocol × Server × TaskStore) × List Effect :=
  match p.session with
  | some s =>
      let sv2 := { sv with session_id_allocator := sv.session_id_allocator.free s.id }
      let c := SessionBase.close s st SessionCloseErrorCode.SESSION_DIED
      ((⟨none, false⟩, sv2, c.1.2), c.2)
  | none =>
      ((⟨p.session, false⟩, sv, st), [])

/-- One accepted connection on a fresh server, about to be torn down: the
state after `connection_made` on transport 7. -/
def teardown_scenario_made : (ServerProtocol × Server × TaskStore) × List Effect :=
  ServerProtocol.connection_made ⟨none, true⟩ ⟨⟨1, 2, []⟩, []⟩ TaskStore.fresh 7

/-- The same connection after `connection_lost`. -/
def teardown_scenario_lost : (ServerProtocol × Server × TaskStore) × List Effect :=
  ServerProtocol.connection_lost teardown_scenario_made.1.1
    teardown_scenario_made.1.2.1 teardown_scenario_made.1.2.2

/-- C1: evaluating the server teardown path at a concrete connection.  One
accepted connection adds the session to `server.sessions` under id 1 exactly
once; when the connection is lost, the id is freed back to the allocator and
the protocol drops its reference — but the entry under id 1 is still present
in `server.sessions`: `connection_lost` never removes the session from the
mapping, contradicting the claim. -/
theorem session_never_removed_from_mapping :
    (teardown_scenario_made.1.2.1.sessions.countP (fun q => q.1 == 1) = 1)
      ∧ teardown_scenario_made.1.2.1.session_id_allocator.allocated = [1]
      ∧ teardown_scenario_lost.1.2.1.session_id_allocator.allocated = []
      ∧ teardown_scenario_lost.1.1.session = none
      ∧ (teardown_scenario_lost.1.2.1.sessions.countP (fun q => q.1 == 1) = 1) := by
  decide

/-- C5: `connection_made` under both outcomes of id allocation.  If the
allocator is exhausted, the connection is refused: the refusal is logged, the
raw transport is closed, and protocol, server and event loop are all exactly
unchanged — no session is constructed and no task is spawned.  If allocation
yields id `i`, the session is constructed, stored, and notified via
`on_connected()`. -/
theorem connection_made_refuses_or_connects (p : ServerProtocol) (sv : Server)
    (st : TaskStore) (tr : Nat) :
    (sv.session_id_allocator.allocate = .error AllocationError.pool_exhausted →
        ServerProtocol.connection_made p sv st tr
          = ((p, sv, st), [Effect.log_refusal, Effect.transport_close tr]))
      ∧ (∀ i al, sv.session_id_allocator.allocate = .ok (i, al) →
        ServerProtocol.connection_made p sv st tr
          = (({ p with session := some (ServerSession.new tr i st).1 },
              { sv with
                  session_id_allocator := al
                  sessions := dict_set sv.sessions i (ServerSession.new tr i st).1 },
              (ServerSession.new tr i st).2),
             [Effect.on_connected i])) := by
  constructor
  · intro h
    simp [ServerProtocol.connection_made, Server.create_session, h]
  · intro i al h
    simp [ServerProtocol.connection_made, Server.create_session, h,
      ServerSession.new, ServerSession.init, ServerSessionBase.init,
      SessionBase.init, CServerSession.init]

/-- Witness for C5: a server whose pool `[1, 2]` is exhausted refuses the
connection untouched; a server with a free pool accepts and greets the new
session. -/
theorem connection_made_witness :
    (ServerProtocol.connection_made ⟨none, true⟩ ⟨⟨1, 2, [1, 2]⟩, []⟩ TaskStore.fresh 9
        = ((⟨none, true⟩, ⟨⟨1, 2, [1, 2]⟩, []⟩, TaskStore.fresh),
           [Effect.log_refusal, Effect.transport_close 9]))
      ∧ (ServerProtocol.connection_made ⟨none, true⟩ ⟨⟨1, 2, []⟩, []⟩ TaskStore.fresh 9
        = ((⟨some (ServerSession.new 9 1 TaskStore.fresh).1, true⟩,
            ⟨⟨1, 2, [1]⟩, dict_set [] 1 (ServerSession.new 9 1 TaskStore.fresh).1⟩,
            (ServerSession.new 9 1 TaskStore.fresh).2),
           [Effect.on_connected 1])) :=
  ⟨(connection_made_refuses_or_connects ⟨none, true⟩ ⟨⟨1, 2, [1, 2]⟩, []⟩
      TaskStore.fresh 9).1 rfl,
   (connection_made_refuses_or_connects ⟨none, true⟩ ⟨⟨1, 2, []⟩, []⟩
      TaskStore.fresh 9).2 1 ⟨1, 2, [1]⟩ rfl⟩

/-- A decoded DML message; only its kind name (`message.handler`) matters to
dispatch (`net.py` 102-111). -/
structure Message where
  handler : String
  deriving DecidableEq, Repr

/-- Embeds `DMLSessionBase.on_message` (`net.py` 102-111): log the arrival, look the
message's kind up in the `handlers` dispatch table; if a handler is bound,
invoke it with the owning session and the message; otherwise log a warning
and continue — the session is returned unchanged and nothing is closed (the
strict close on unhandled kinds is commented out in the source).  Handlers
are abstracted to numeric identifiers, the table to an association list. -/
def DMLSessionBase.on_message (handlers : List (String × Nat)) (s : Session)
    (m : Message) : Session × List Effect :=
  match List.lookup m.handler handlers with
  | some f => (s, [Effect.log_on_message s.id m.handler, Effect.invoke f s.id m.handler])
  | none => (s, [Effect.log_on_message s.id m.handler, Effect.log_no_handler s.id m.handler])

/-- C6: if the message's kind is bound to handler `f`, dispatch invokes
exactly `f` with the owning session and the message and nothing else; if the
kind is unbound, dispatch only logs a warning — in both cases the session is
returned unchanged (not closed) and, being a total function, nothing is
raised. -/
theorem on_message_dispatch (handlers : List (String × Nat)) (s : Session) (m : Message) :
    (∀ f, List.lookup m.handler handlers = some f →
        DMLSessionBase.on_message handlers s m
          = (s, [Effect.log_on_message s.id m.handler, Effect.invoke f s.id m.handler]))
      ∧ (List.lookup m.handler handlers = none →
        DMLSessionBase.on_message handlers s m
          = (s, [Effect.log_on_message s.id m.handler,
                 Effect.log_no_handler s.id m.handler])) := by
  constructor
  · intro f h
    simp [DMLSessionBase.on_message, h]
  · intro h
    simp [DMLSessionBase.on_message, h]

/-- Witness for C6: with handler 7 bound to kind `LOGIN`, a `LOGIN` message
invokes handler 7; a `PING` message only logs the missing handler. -/
theorem on_message_dispatch_witness :
    (DMLSessionBase.on_message [("LOGIN", 7)] Session.blank ⟨"LOGIN"⟩
        = (Session.blank, [Effect.log_on_message 0 "LOGIN", Effect.invoke 7 0 "LOGIN"]))
      ∧ (DMLSessionBase.on_message [("LOGIN", 7)] Session.blank ⟨"PING"⟩
        = (Session.blank,
           [Effect.log_on_message 0 "PING", Effect.log_no_handler 0 "PING"])) :=
  ⟨(on_message_dispatch [("LOGIN", 7)] Session.blank ⟨"LOGIN"⟩).1 7 (by decide),
   (on_message_dispatch [("LOGIN", 7)] Session.blank ⟨"PING"⟩).2 (by decide)⟩

/-- Embeds `SessionBase.on_timeout` (`net.py` 90-96): log the timeout, then
force-close the session with `SESSION_DIED`. -/
def SessionBase.on_timeout (s : Session) (st : TaskStore) :
    (Session × TaskStore) × List Effect :=
  let c := SessionBase.close s st SessionCloseErrorCode.SESSION_DIED
  (c.1, Effect.log_timeout s.id :: c.2)

/-- Embeds `SessionBase._ensure_alive` (`net.py` 38-48): starting at its spawn time
(taken as 0, the session's creation), check `self.alive`; if false, fire
`on_timeout` and stop; otherwise sleep `ensure_alive_interval` and check
again.  The loop only reads `alive` — the session passed along is unchanged
between checks.  `fuel` bounds the unbounded Python loop; the result is the
absolute time at which `on_timeout` fired together with its outcome, or
`none` if no timeout occurred within `fuel` checks. -/
def SessionBase.ensure_alive_loop (fuel t : Nat) (s : Session) (st : TaskStore) :
    Option (Nat × ((Session × TaskStore) × List Effect)) :=
  match fuel with
  | 0 => none
  | fuel + 1 =>
      if s.alive then SessionBase.ensure_alive_loop fuel (t + s.ensure_alive_interval) s st
      else some (t, SessionBase.on_timeout s st)

/-- C7: a session whose `alive` flag is false and never set to true is caught
by the watchdog at its very first check — time 0, within one watchdog
interval of creation — and deterministically closed with `SESSION_DIED`: the
timeout log and the `SESSION_DIED` closure appear in the trace, the transport
is released, and the `alive` flag itself is untouched (the watchdog only
reads it). -/
theorem watchdog_kills_dead_session (fuel : Nat) (s : Session) (st : TaskStore)
    (tr : Nat) (halive : s.alive = false) (hfuel : 0 < fuel)
    (ht : s.transport = some tr) :
    SessionBase.ensure_alive_loop fuel 0 s st = some (0, SessionBase.on_timeout s st)
      ∧ 0 ≤ s.ensure_alive_interval
      ∧ (SessionBase.on_timeout s st).2.head? = some (Effect.log_timeout s.id)
      ∧ Effect.log_close s.id SessionCloseErrorCode.SESSION_DIED
          ∈ (SessionBase.on_timeout s st).2
      ∧ (SessionBase.on_timeout s st).1.1.transport = none
      ∧ (SessionBase.on_timeout s st).1.1.alive = s.alive := by
  match fuel, hfuel with
  | fuel + 1, _ =>
    refine ⟨by simp [SessionBase.ensure_alive_loop, halive], Nat.zero_le _, ?_, ?_, ?_, ?_⟩ <;>
      cases h1 : s.ensure_alive_task <;> cases h2 : s.keep_alive_task <;>
        simp [SessionBase.on_timeout, SessionBase.close, h1, h2, ht]

/-- Witness for C7: a concrete never-alive session is closed with
`SESSION_DIED` at time 0. -/
theorem watchdog_kills_dead_session_witness :
    SessionBase.ensure_alive_loop 1 0
        { transport := some 4, ensure_alive_interval := 10, keep_alive_interval := 60,
          ensure_alive_task := some 0, keep_alive_task := none,
          access_level := 0, alive := false, id := 2 }
        ⟨1, [(0, TaskKind.ensureAlive)]⟩
      = some (0, SessionBase.on_timeout
          { transport := some 4, ensure_alive_interval := 10, keep_alive_interval := 60,
            ensure_alive_task := some 0, keep_alive_task := none,
            access_level := 0, alive := false, id := 2 }
          ⟨1, [(0, TaskKind.ensureAlive)]⟩) :=
  (watchdog_kills_dead_session 1
    { transport := some 4, ensure_alive_interval := 10, keep_alive_interval := 60,
      ensure_alive_task := some 0, keep_alive_task := none,
      access_level := 0, alive := false, id := 2 }
    ⟨1, [(0, TaskKind.ensureAlive)]⟩ 4 rfl (by decide) rfl).1

/-- Embeds `ClientSessionBase._keep_alive` (`net.py` 304-308), run over a connection
held open for `D` time-units: each iteration sends a keep-alive payload and
then sleeps `T` (`keep_alive_interval`), so payloads go out at times
`t, t + T, t + 2T, …`; the task is cancelled at time `D`, so an iteration is
only reached while its time is `< D`.  Returns the send times in order;
`fuel` bounds the unbounded Python loop. -/
def ClientSessionBase.keep_alive_run (T D fuel t : Nat) : List Nat :=
  match fuel with
  | 0 => []
  | fuel + 1 =>
      if t < D then t :: ClientSessionBase.keep_alive_run T D fuel (t + T)
      else []

/-- Number of keep-alive sends from start time `t`, capped by `fuel`: the
loop sends at `t, t + T, …` while still before the cancellation time `D`. -/
theorem keep_alive_run_length (T : Nat) (hT : 0 < T) (fuel : Nat) :
    ∀ t D, (ClientSessionBase.keep_alive_run T D fuel t).length
      = min fuel ((D - t + T - 1) / T) := by
  induction fuel with
  | zero => intro t D; simp [ClientSessionBase.keep_alive_run]
  | succ fuel ih =>
    intro t D
    rw [ClientSessionBase.keep_alive_run]
    by_cases h : t < D
    · simp only [if_pos h, List.length_cons, ih (t + T) D]
      have hx2 : (D - (t + T) + T - 1) / T = (D - t - 1) / T := by
        rcases le_or_lt (t + T) D with hle | hlt
        · have hxa : D - (t + T) + T - 1 = D - t - 1 := by omega
          rw [hxa]
        · have hxa : D - (t + T) + T - 1 = T - 1 := by omega
          have hxb : D - t - 1 < T := by omega
          rw [hxa, Nat.div_eq_of_lt (by omega), Nat.div_eq_of_lt hxb]
      have hx : D - t + T - 1 = (D - t - 1) + T := by omega
      rw [hx2, hx, Nat.add_div_right _ hT]
      generalize (D - t - 1) / T = q
      omega
    · simp only [if_neg h, List.length_nil]
      have h1 : D - t + T - 1 = T - 1 := by omega
      rw [h1, Nat.div_eq_of_lt (by omega)]
      simp

/-- C8 counterexample: with keep-alive interval `T = 10` and a connection
held open for `D = 5`, the keep-alive task sends one payload — at time 0,
before its first sleep — not the claimed `⌊D/T⌋ = 0`. -/
theorem keep_alive_count_counterexample :
    (ClientSessionBase.keep_alive_run 10 5 6 0).length ≠ 5 / 10
      ∧ ClientSessionBase.keep_alive_run 10 5 6 0 = [0] := by
  decide

/-- C8 amended: a client session with keep-alive interval `T > 0` whose
connection is held open for duration `D` with no cancellation before `D`
sends exactly `⌈D/T⌉ = ⌊(D + T - 1)/T⌋` keep-alive payloads — one
unconditionally at each tick, the first immediately at time 0 — which is
`⌊D/T⌋` only when `T` divides `D`, and `⌊D/T⌋ + 1` otherwise. -/
theorem client_keep_alive_send_count (T D fuel : Nat) (hT : 0 < T)
    (hfuel : D ≤ fuel) :
    (ClientSessionBase.keep_alive_run T D fuel 0).length = (D + T - 1) / T := by
  have h := keep_alive_run_length T hT fuel 0 D
  rw [Nat.sub_zero] at h
  rw [h]
  have hexp : (D + 1) * T = D * T + T := by ring
  have hmul : D ≤ D * T := by
    calc D ≤ T * D := Nat.le_mul_of_pos_left D hT
      _ = D * T := Nat.mul_comm T D
  have hlt : (D + T - 1) / T < D + 1 := by
    rw [Nat.div_lt_iff_lt_mul hT]
    omega
  exact min_eq_right (by omega)

/-- Witness for C8 amended: `T = 10`, `D = 25` gives three sends
(at times 0, 10 and 20). -/
theorem client_keep_alive_send_count_witness :
    (0 < 10 ∧ 25 ≤ 25)
      ∧ (ClientSessionBase.keep_alive_run 10 25 25 0).length = (25 + 10 - 1) / 10 :=
  ⟨⟨by decide, by decide⟩,
   client_keep_alive_send_count 10 25 25 (by decide) (by decide)⟩
